import Mathlib

/-!
Shallow embedding of `src/backend.py` (Background-Checker).

The external collaborators (TextBlob polarity, NewsAPI HTTP response, the
Node.js Reddit scraper) are modelled as explicit parameters: a polarity
oracle `blob : String → ℚ` and small inductive types enumerating the
upstream response shapes the Python code branches on.  Floats are modelled
as exact rationals; Python string operations (`in`, `.lower()`, slicing)
are embedded character-exactly for the ASCII data the program manipulates.
-/

namespace BGC

/-- Prefix test on character lists (`needle` begins `hay`). -/
def charsStartWith : List Char → List Char → Bool
  | [], _ => true
  | _ :: _, [] => false
  | a :: as, b :: bs => a == b && charsStartWith as bs

/-- Contiguous-substring test on character lists.  Embeds the Python
membership test `needle in hay` on strings. -/
def charsHasSub (needle : List Char) : List Char → Bool
  | [] => needle.isEmpty
  | b :: bs => charsStartWith needle (b :: bs) || charsHasSub needle bs

/-- `strHasSub hay needle` is the Python expression `needle in hay`. -/
def strHasSub (hay needle : String) : Bool :=
  charsHasSub needle.toList hay.toList

/-- Python slice `s[:n]`: the first `n` characters of `s`. -/
def pyTruncate (s : String) (n : Nat) : String :=
  String.mk (s.toList.take n)

/-- Python `str.lower()`: lowercase every character (identical to the
library `toLower` on the ASCII data involved, but defined by structural
recursion so concrete evaluation reduces). -/
def pyLower (s : String) : String :=
  String.mk (s.toList.map Char.toLower)

/-- Python `min(a, b)` on rationals: `a` when `a <= b`, else `b`. -/
def pyMinQ (a b : ℚ) : ℚ := if a ≤ b then a else b

/-- Python `max(a, b)` on rationals: `a` when `b <= a`, else `b`. -/
def pyMaxQ (a b : ℚ) : ℚ := if b ≤ a then a else b

/-- Python `min(a, b)` on integers. -/
def pyMinI (a b : Int) : Int := if a ≤ b then a else b

/-- Python `max(a, b)` on integers. -/
def pyMaxI (a b : Int) : Int := if b ≤ a then a else b

/-- The fixed negative term list of `analyze_sentiment_multilingual`
(backend.py lines 104-110). -/
def tagalog_negative : List String :=
  ["masama", "pangit", "corrupt", "scam", "delay", "hindi",
   "wala", "problema", "issue", "reklamo", "complaint", "bad",
   "poor", "terrible", "worst", "bulok", "basura", "tanga",
   "fraud", "fake", "liar", "unprofessional", "late", "slow",
   "walang konsiderasyon", "walang kwenta", "disappointing"]

/-- The fixed positive term list of `analyze_sentiment_multilingual`
(backend.py lines 112-116). -/
def tagalog_positive : List String :=
  ["maganda", "mabuti", "professional", "trusted", "excellent",
   "quality", "good", "great", "best", "galing", "sulit",
   "reliable", "honest", "legit", "magaling", "on-time", "fast"]

/-- `EnhancedBackgroundChecker.analyze_sentiment_multilingual`
(backend.py lines 91-131).  `blob text` stands for the external TextBlob
polarity `TextBlob(text).sentiment.polarity`. -/
def analyze_sentiment_multilingual (blob : String → ℚ) (text : String) : ℚ :=
  if text = "" then 0
  else
    let base_score := blob text
    let text_lower := pyLower text
    let neg_count := tagalog_negative.countP fun w => strHasSub text_lower w
    let pos_count := tagalog_positive.countP fun w => strHasSub text_lower w
    let adjusted :=
      if neg_count > pos_count then
        base_score - (3/10 : ℚ) * ((neg_count : ℚ) - (pos_count : ℚ))
      else if pos_count > neg_count then
        base_score + (3/10 : ℚ) * ((pos_count : ℚ) - (neg_count : ℚ))
      else base_score
    pyMaxQ (-1) (pyMinQ 1 adjusted)

/-- The fixed negative-keyword list of `extract_keywords`
(backend.py lines 135-139). -/
def negative_keywords : List String :=
  ["corrupt", "scam", "fraud", "fake", "liar", "unprofessional",
   "masama", "pangit", "bulok", "basura", "walang konsiderasyon",
   "walang kwenta", "delay", "problema", "reklamo"]

/-- `EnhancedBackgroundChecker.extract_keywords` (backend.py lines 133-147). -/
def extract_keywords (text : String) : List String :=
  negative_keywords.filter fun w => strHasSub (pyLower text) w

/-- One news finding dict as built by `search_news_api`. -/
structure NewsFinding where
  title : String
  date : String
  source : String
  url : String
  snippet : String
  sentiment : String
  sentiment_score : ℚ
deriving DecidableEq

/-- One raw article from the NewsAPI JSON (fields defaulted to empty
strings, as the Python `dict.get` calls do). -/
structure Article where
  title : String
  description : String
  publishedAt : String
  sourceName : String
  url : String
deriving DecidableEq

/-- The upstream NewsAPI response shapes `search_news_api` branches on:
HTTP 200 with an article list, HTTP 426 (rate limit), any other HTTP
status, or a raised exception. -/
inductive NewsApiResp where
  | ok (articles : List Article)
  | rateLimited
  | otherStatus
  | exn (msg : String)
deriving DecidableEq

/-- Placeholder finding for an empty NewsAPI result (backend.py lines 180-188). -/
def no_news_placeholder (name today : String) : NewsFinding :=
  ⟨"No recent news articles found", today, "NewsAPI", "#",
   "No news coverage found for \"" ++ name ++ "\" in the past 30 days.",
   "neutral", 0⟩

/-- Placeholder finding for HTTP 426 (backend.py lines 223-231). -/
def rate_limit_placeholder (today : String) : NewsFinding :=
  ⟨"News API rate limit reached", today, "System", "#",
   "Too many requests. Please try again later.", "neutral", 0⟩

/-- Placeholder finding for other HTTP errors (backend.py lines 234-242). -/
def unavailable_placeholder (today : String) : NewsFinding :=
  ⟨"News search temporarily unavailable", today, "System", "#",
   "Unable to retrieve news at this time.", "neutral", 0⟩

/-- Placeholder finding for a raised exception (backend.py lines 246-254). -/
def error_placeholder (today msg : String) : NewsFinding :=
  ⟨"News search error", today, "System", "#", "Error: " ++ msg, "neutral", 0⟩

/-- The score-to-label expression at the news site (backend.py line 208). -/
def newsItemLabel (s : ℚ) : String :=
  if s > 1/10 then "positive" else if s < -(1/10) then "negative" else "neutral"

/-- One retained article turned into a finding (backend.py lines 190-210). -/
def mkNewsFinding (blob : String → ℚ) (a : Article) : NewsFinding :=
  let content := a.title ++ " " ++ a.description
  let sentiment_score := analyze_sentiment_multilingual blob content
  ⟨a.title, pyTruncate a.publishedAt 10, a.sourceName, a.url,
   if a.description = "" then a.title else a.description,
   newsItemLabel sentiment_score, sentiment_score⟩

/-- `EnhancedBackgroundChecker.search_news_api` (backend.py lines 149-254),
as a function of the upstream response.  `today` stands for
`datetime.now().strftime` in the placeholder branches. -/
def search_news_api (blob : String → ℚ) (name today : String)
    (resp : NewsApiResp) : List NewsFinding :=
  match resp with
  | .ok articles =>
      if articles = [] then [no_news_placeholder name today]
      else (articles.filter fun a => decide (10 ≤ a.title.length)).map
            (mkNewsFinding blob)
  | .rateLimited => [rate_limit_placeholder today]
  | .otherStatus => [unavailable_placeholder today]
  | .exn msg => [error_placeholder today msg]

/-- One raw Reddit post from the scraper JSON (fields defaulted as the
Python `post.get(...)` calls do). -/
structure RedditPost where
  full_text : String
  title : String
  author : String
  subreddit : String
  score : Int
  url : String
deriving DecidableEq

/-- One sample-comment dict built in `search_reddit` (backend.py lines 327-335). -/
structure SampleComment where
  text : String
  author : String
  subreddit : String
  score : Int
  url : String
  sentiment : String
  keywords : List String
deriving DecidableEq

/-- One social-finding dict built in `search_reddit`. -/
structure SocialFinding where
  platform : String
  mentions : Nat
  sentiment : String
  summary : String
  sample_comments : List SampleComment
deriving DecidableEq

/-- The scraper-wrapper outcome `search_reddit` branches on: a dict with
an error key, or a clean result with posts and a total mention count. -/
inductive RedditResult where
  | error (msg : String)
  | ok (posts : List RedditPost) (total : Nat)
deriving DecidableEq

/-- The score-to-label expression at the sample-comment site
(backend.py line 333). -/
def sampleCommentLabel (s : ℚ) : String :=
  if s > 1/10 then "positive" else if s < -(1/10) then "negative" else "neutral"

/-- The per-post score computed in the `search_reddit` loop (backend.py line 313). -/
def postScore (blob : String → ℚ) (p : RedditPost) : ℚ :=
  analyze_sentiment_multilingual blob p.full_text

/-- The `positive` tally of the loop (backend.py lines 318-319). -/
def posTally (blob : String → ℚ) (posts : List RedditPost) : Nat :=
  (posts.map (postScore blob)).countP fun s => decide (s > 1/10)

/-- The `negative` tally of the loop (backend.py lines 320-321). -/
def negTally (blob : String → ℚ) (posts : List RedditPost) : Nat :=
  (posts.map (postScore blob)).countP fun s => decide (s < -(1/10))

/-- The `neutral` tally: the `else` branch of the loop (backend.py lines 322-323). -/
def neutTally (blob : String → ℚ) (posts : List RedditPost) : Nat :=
  (posts.map (postScore blob)).countP fun s =>
    !(decide (s > 1/10)) && !(decide (s < -(1/10)))

/-- One sample-comment entry for a post (backend.py lines 327-335):
title truncated to 200 characters, label from the post score, keywords
extracted from the full text. -/
def sampleEntry (blob : String → ℚ) (p : RedditPost) : SampleComment :=
  ⟨pyTruncate p.title 200, p.author, p.subreddit, p.score, p.url,
   sampleCommentLabel (postScore blob p), extract_keywords p.full_text⟩

/-- Sort-key bucket 0 of backend.py line 338. -/
def negBucket (c : SampleComment) : Bool := c.sentiment == "negative"

/-- Sort-key bucket 1 of backend.py line 338. -/
def neutBucket (c : SampleComment) : Bool := c.sentiment == "neutral"

/-- Sort-key bucket 2 of backend.py line 338 (the `else` key). -/
def posBucket (c : SampleComment) : Bool := !(negBucket c) && !(neutBucket c)

/-- `sample_comments.sort(key=...)` (backend.py line 338).  Python
`list.sort` is stable, so sorting on the three-valued key 0/1/2 equals
concatenating the equal-key buckets in key order, keeping the original
relative order inside each bucket. -/
def sortNegFirst (l : List SampleComment) : List SampleComment :=
  l.filter negBucket ++ l.filter neutBucket ++ l.filter posBucket

/-- `EnhancedBackgroundChecker.search_reddit` (backend.py lines 256-379),
reduced to the single social-finding dict it appends.  The
`if len(sample_comments) < 5` append inside the loop over `posts` admits
exactly the first five posts, i.e. the 5-post prefix in input order. -/
def search_reddit_finding (blob : String → ℚ) (res : RedditResult) : SocialFinding :=
  match res with
  | .error msg =>
      ⟨"Reddit Philippines", 0, "N/A", "Unable to scan Reddit: " ++ msg, []⟩
  | .ok posts total =>
      if posts = [] then
        ⟨"Reddit Philippines", 0, "N/A",
         "No discussions found about this entity.", []⟩
      else
        let positive := posTally blob posts
        let negative := negTally blob posts
        let neutral := neutTally blob posts
        let sample_comments := sortNegFirst ((posts.take 5).map (sampleEntry blob))
        let overall_sentiment :=
          if positive > negative ∧ positive > neutral then "positive"
          else if negative > positive then "negative"
          else "mixed"
        ⟨"Reddit Philippines", total, overall_sentiment,
         toString positive ++ " positive, " ++ toString negative ++
           " negative, " ++ toString neutral ++ " neutral discussions found.",
         sample_comments⟩

/-- The `social_data` list returned by `search_reddit`: always a single
finding. -/
def search_reddit (blob : String → ℚ) (res : RedditResult) : List SocialFinding :=
  [search_reddit_finding blob res]

/-- The `factors` dict of `calculate_risk`: at most one entry per
category key, last write wins. -/
structure Factors where
  news : Option String
  social : Option String
deriving DecidableEq

/-- The risk dict returned by `calculate_risk` (backend.py lines 456-461). -/
structure RiskAssessment where
  score : Int
  level : String
  recommendation : String
  factors : Factors
deriving DecidableEq

/-- The `real_news` filter of `calculate_risk` (backend.py line 411):
drop findings whose title contains the substring `No recent news` or the
substring `temporarily unavailable`. -/
def codeRealNews (news : List NewsFinding) : List NewsFinding :=
  news.filter fun n =>
    !(strHasSub n.title "No recent news") && !(strHasSub n.title "temporarily unavailable")

/-- `news_sentiment_avg` (backend.py line 414): mean score over the
findings `calculate_risk` keeps. -/
def codeNewsAvg (news : List NewsFinding) : ℚ :=
  ((codeRealNews news).map fun n => n.sentiment_score).sum /
    ((codeRealNews news).length : ℚ)

/-- The news bracket of `calculate_risk` (backend.py lines 416-427):
score delta and factor text as a function of the average. -/
def newsBracket (avg : ℚ) : Int × String :=
  if avg < -(3/10) then (50, "Significantly negative media coverage detected")
  else if avg < -(1/10) then (30, "Some negative media mentions found")
  else if avg > 3/10 then (-10, "Positive media presence confirmed")
  else (5, "Neutral media coverage")

/-- One iteration of the social loop of `calculate_risk`
(backend.py lines 435-448): accumulates the score and overwrites the
social factor (a finding with mentions > 0 and an unlisted sentiment
touches neither). -/
def socialStep (acc : Int × Option String) (s : SocialFinding) : Int × Option String :=
  if s.mentions > 0 then
    if s.sentiment = "negative" then (acc.1 + 25, some "Negative public discussions detected")
    else if s.sentiment = "positive" then (acc.1 - 5, some "Positive public sentiment")
    else if s.sentiment = "mixed" then (acc.1 + 10, some "Mixed public opinions")
    else acc
  else (acc.1 + 10, some "No significant online discussions")

/-- Final assembly of `calculate_risk` (backend.py lines 453-461): clamp,
tier the clamped score, and pick the recommendation off the same score. -/
def mkAssessment (raw : Int) (nf sf : Option String) : RiskAssessment :=
  let score := pyMaxI 0 (pyMinI 100 raw)
  ⟨score,
   if score < 30 then "Low" else if score < 60 then "Medium" else "High",
   if score < 30 then "Approved for contracting"
   else if score < 60 then "Requires further review"
   else "High risk - not recommended",
   ⟨nf, sf⟩⟩

/-- `EnhancedBackgroundChecker.calculate_risk` (backend.py lines 401-461). -/
def calculate_risk (news : List NewsFinding) (social : List SocialFinding) :
    RiskAssessment :=
  let newsPart : Int × Option String :=
    if news = [] then (0, none)
    else if codeRealNews news = [] then
      (15, some "Limited public media presence")
    else
      let b := newsBracket (codeNewsAvg news)
      (b.1, some b.2)
  let socialPart : Int × Option String :=
    if social = [] then (10, some "Limited social media presence")
    else social.foldl socialStep (0, none)
  mkAssessment (newsPart.1 + socialPart.1) newsPart.2 socialPart.2

/-- The response body of `perform_background_check` (status log omitted:
no claim concerns it). -/
structure CheckResponse where
  subject : String
  timestamp : String
  risk : RiskAssessment
  news : List NewsFinding
  social : List SocialFinding
deriving DecidableEq

/-- The HTTP result of the endpoint: either the 400 error body or the
200 payload. -/
inductive ApiResult where
  | clientError (status : Nat) (error : String)
  | success (status : Nat) (body : CheckResponse)
deriving DecidableEq

/-- The HTTP status of an endpoint result. -/
def statusOf : ApiResult → Nat
  | .clientError s _ => s
  | .success s _ => s

/-- `perform_background_check` (backend.py lines 463-492), as a function
of the parsed `name` field (`none` for a missing key or JSON null) and
the two upstream outcomes.  Python `if not name` is true exactly for a
missing name or the empty string. -/
def perform_background_check (blob : String → ℚ) (today ts : String)
    (name : Option String) (newsResp : NewsApiResp) (redditRes : RedditResult) :
    ApiResult :=
  match name with
  | none => .clientError 400 "Name is required"
  | some n =>
      if n = "" then .clientError 400 "Name is required"
      else
        let news := search_news_api blob n today newsResp
        let social := search_reddit blob redditRes
        .success 200 ⟨n, ts, calculate_risk news social, news, social⟩

/-! ### Definitions stated from the specification and claims

These restate the contracts in the spec's own vocabulary, to be compared
with the code-derived definitions above. -/

/-- Evidence Classifier stated from the specification (section 4.3):
score > 0.1 is positive, score < -0.1 is negative, otherwise neutral. -/
def classify (s : ℚ) : String :=
  if s > 1/10 then "positive" else if s < -(1/10) then "negative" else "neutral"

/-- Lexicon adjustment stated from the claim: subtract 0.3 times the
count surplus when negative matches dominate, add symmetrically when
positive matches dominate, otherwise leave the base unchanged. -/
def lexiconAdjustment (text : String) : ℚ :=
  let text_lower := pyLower text
  let neg_count := tagalog_negative.countP fun w => strHasSub text_lower w
  let pos_count := tagalog_positive.countP fun w => strHasSub text_lower w
  if neg_count > pos_count then -((3/10 : ℚ) * ((neg_count : ℚ) - (pos_count : ℚ)))
  else if pos_count > neg_count then (3/10 : ℚ) * ((pos_count : ℚ) - (neg_count : ℚ))
  else 0

/-- Placeholder recognizer stated from the claims: the four synthetic
failure items of `search_news_api` (no-news-found, rate-limited,
unavailable, error). -/
def specIsPlaceholder (n : NewsFinding) : Bool :=
  n.title == "No recent news articles found" ||
  n.title == "News API rate limit reached" ||
  n.title == "News search temporarily unavailable" ||
  n.title == "News search error"

/-- The real (non-placeholder) findings in the claims' vocabulary. -/
def specRealNews (news : List NewsFinding) : List NewsFinding :=
  news.filter fun n => !(specIsPlaceholder n)

/-- The news average in the claims' vocabulary: the mean sentiment score
over the real (non-placeholder) findings. -/
def specNewsAvg (news : List NewsFinding) : ℚ :=
  ((specRealNews news).map fun n => n.sentiment_score).sum /
    ((specRealNews news).length : ℚ)

/-- The score delta one social finding contributes in `calculate_risk`. -/
def socialDelta (s : SocialFinding) : Int :=
  if s.mentions > 0 then
    if s.sentiment = "negative" then 25
    else if s.sentiment = "positive" then -5
    else if s.sentiment = "mixed" then 10
    else 0
  else 10

/-- The total social contribution of `calculate_risk`: +10 when no
social findings were supplied, otherwise the sum of the per-finding
deltas. -/
def socialContribution (social : List SocialFinding) : Int :=
  if social = [] then 10 else (social.map socialDelta).sum

/-! ### Concrete inputs used by witnesses and counterexamples -/

/-- A polarity oracle standing for TextBlob returning 0 on every text. -/
def zeroBlob : String → ℚ := fun _ => 0

/-- A genuine negative news finding (not a placeholder). -/
def fraudFinding : NewsFinding :=
  ⟨"Construction firm fraud scandal widens", "2026-10-01", "Manila Times", "#",
   "Regulators widen a fraud investigation.", "negative", -(2/5)⟩

/-- A news list mixing one real finding with the rate-limit placeholder. -/
def c1News : List NewsFinding :=
  [fraudFinding, rate_limit_placeholder "2026-10-12"]

/-- A post whose text matches one negative lexicon term and no positive
term, so it classifies negative under the zero polarity oracle. -/
def negDemoPost (t : String) : RedditPost :=
  ⟨"this is a scam", t, "u-neg", "Philippines", 3, "#"⟩

/-- A post whose text matches one positive lexicon term and no negative
term, so it classifies positive under the zero polarity oracle. -/
def posDemoPost (t : String) : RedditPost :=
  ⟨"excellent service from this builder", t, "u-pos", "Philippines", 7, "#"⟩

/-- Six posts classifying 3 negative / 3 positive / 0 neutral. -/
def tiePosts : List RedditPost :=
  [negDemoPost "n1", negDemoPost "n2", negDemoPost "n3",
   posDemoPost "p1", posDemoPost "p2", posDemoPost "p3"]

/-- Five positive posts followed by one negative post: the negative one
sits outside the 5-post sample window. -/
def lateNegPosts : List RedditPost :=
  [posDemoPost "Positive review one", posDemoPost "Positive review two",
   posDemoPost "Positive review three", posDemoPost "Positive review four",
   posDemoPost "Positive review five", negDemoPost "Total scam operation exposed"]

/-! ### Helper lemmas -/

theorem socialStep_fst (acc : Int × Option String) (s : SocialFinding) :
    (socialStep acc s).1 = acc.1 + socialDelta s := by
  unfold socialStep socialDelta
  split_ifs <;> simp [sub_eq_add_neg]

theorem foldl_socialStep_fst (l : List SocialFinding) (acc : Int × Option String) :
    (l.foldl socialStep acc).1 = acc.1 + (l.map socialDelta).sum := by
  induction l generalizing acc with
  | nil => simp
  | cons s t ih =>
      rw [List.foldl_cons, ih, socialStep_fst, List.map_cons, List.sum_cons, add_assoc]

theorem negBucket_sentiment {c : SampleComment} (h : negBucket c = true) :
    c.sentiment = "negative" := by
  simpa [negBucket] using h

theorem neutBucket_sentiment {c : SampleComment} (h : neutBucket c = true) :
    c.sentiment = "neutral" := by
  simpa [neutBucket] using h

theorem bucket_count (l : List SampleComment) :
    (l.filter negBucket).length + (l.filter neutBucket).length +
      (l.filter posBucket).length = l.length := by
  induction l with
  | nil => rfl
  | cons c t ih =>
      by_cases h1 : negBucket c = true
      · have h2 : neutBucket c = false := by
          simp [neutBucket, negBucket_sentiment h1]
        have h3 : posBucket c = false := by simp [posBucket, h1]
        simp only [List.filter_cons, h1, h2, h3, if_pos, if_neg, Bool.false_eq_true,
          ite_false, ite_true, List.length_cons]
        omega
      · have h1' : negBucket c = false := by simpa using h1
        by_cases h2 : neutBucket c = true
        · have h3 : posBucket c = false := by simp [posBucket, h2]
          simp only [List.filter_cons, h1', h2, h3, Bool.false_eq_true,
            ite_false, ite_true, List.length_cons]
          omega
        · have h2' : neutBucket c = false := by simpa using h2
          have h3 : posBucket c = true := by simp [posBucket, h1', h2']
          simp only [List.filter_cons, h1', h2', h3, Bool.false_eq_true,
            ite_false, ite_true, List.length_cons]
          omega

theorem sortNegFirst_length (l : List SampleComment) :
    (sortNegFirst l).length = l.length := by
  have := bucket_count l
  simp only [sortNegFirst, List.length_append]
  omega

theorem mem_of_mem_sortNegFirst {c : SampleComment} {l : List SampleComment}
    (h : c ∈ sortNegFirst l) : c ∈ l := by
  simp only [sortNegFirst, List.mem_append] at h
  rcases h with (h1 | h1) | h1 <;> exact (List.mem_filter.mp h1).1

theorem pyTruncate_length_le (s : String) (n : Nat) :
    (pyTruncate s n).length ≤ n := by
  show (s.toList.take n).length ≤ n
  rw [List.length_take]
  exact min_le_left _ _

theorem pyClamp_bounds (x : ℚ) :
    -1 ≤ pyMaxQ (-1) (pyMinQ 1 x) ∧ pyMaxQ (-1) (pyMinQ 1 x) ≤ 1 := by
  unfold pyMaxQ pyMinQ
  split_ifs <;> constructor <;> linarith

/-- C4: for every text and every base polarity the external English
polarity model may return, the sentiment scorer stays in [-1, 1], and on
empty (or missing, which Python treats identically via `if not text`)
text it returns exactly 0. -/
theorem c4_sentiment_score_clamped :
    (∀ (blob : String → ℚ) (text : String),
        -1 ≤ analyze_sentiment_multilingual blob text ∧
        analyze_sentiment_multilingual blob text ≤ 1) ∧
    (∀ blob : String → ℚ, analyze_sentiment_multilingual blob "" = 0) := by
  constructor
  · intro blob text
    by_cases h : text = ""
    · simp [analyze_sentiment_multilingual, h]
    · simp only [analyze_sentiment_multilingual, if_neg h]
      exact pyClamp_bounds _
  · intro blob
    rfl

/-- C5: on non-empty text the scorer equals the clamp of the base
polarity plus the lexicon adjustment computed by case-insensitive
substring counting over the fixed negative and positive term lists. -/
theorem c5_lexicon_adjustment (blob : String → ℚ) (text : String) (h : text ≠ "") :
    analyze_sentiment_multilingual blob text =
      pyMaxQ (-1) (pyMinQ 1 (blob text + lexiconAdjustment text)) := by
  simp only [analyze_sentiment_multilingual, lexiconAdjustment, if_neg h]
  split_ifs <;> exact congrArg (pyMaxQ (-1)) (congrArg (pyMinQ 1) (by ring))

unseal Rat.add Rat.mul Rat.inv Rat.sub in
theorem c5_lexicon_adjustment_witness :
    analyze_sentiment_multilingual zeroBlob "scam" =
      pyMaxQ (-1) (pyMinQ 1 (zeroBlob "scam" + lexiconAdjustment "scam")) :=
  c5_lexicon_adjustment zeroBlob "scam" (by decide)

theorem classify_pos_beq (s : ℚ) :
    (classify s == "positive") = decide (s > 1/10) := by
  unfold classify
  split_ifs <;> simp_all

theorem classify_neg_beq (s : ℚ) :
    (classify s == "negative") = decide (s < -(1/10)) := by
  unfold classify
  split_ifs with h1 h2
  · simp
    linarith
  · simp
    linarith
  · simp
    linarith [not_lt.mp h2]

theorem classify_neut_beq (s : ℚ) :
    (classify s == "neutral") = (!(decide (s > 1/10)) && !(decide (s < -(1/10)))) := by
  unfold classify
  split_ifs <;> simp_all

/-- C6: every site that turns a score into a label (news findings, the
Reddit tallies, the sample comments) uses the one classifier with the
strict thresholds 0.1 and -0.1, and both boundary values classify as
neutral. -/
theorem c6_classification_thresholds_uniform :
    (∀ s : ℚ, newsItemLabel s = classify s) ∧
    (∀ s : ℚ, sampleCommentLabel s = classify s) ∧
    (∀ (blob : String → ℚ) (posts : List RedditPost),
        posTally blob posts =
          (posts.map (postScore blob)).countP fun s => classify s == "positive") ∧
    (∀ (blob : String → ℚ) (posts : List RedditPost),
        negTally blob posts =
          (posts.map (postScore blob)).countP fun s => classify s == "negative") ∧
    (∀ (blob : String → ℚ) (posts : List RedditPost),
        neutTally blob posts =
          (posts.map (postScore blob)).countP fun s => classify s == "neutral") ∧
    classify (1/10) = "neutral" ∧
    classify (-(1/10)) = "neutral" ∧
    (∀ s : ℚ, classify s = "positive" ↔ 1/10 < s) ∧
    (∀ s : ℚ, classify s = "negative" ↔ s < -(1/10)) ∧
    (∀ s : ℚ, classify s = "neutral" ↔ -(1/10) ≤ s ∧ s ≤ 1/10) := by
  refine ⟨fun s => rfl, fun s => rfl, ?_, ?_, ?_, ?_, ?_, ?_, ?_, ?_⟩
  · intro blob posts
    unfold posTally
    rw [funext fun s => (classify_pos_beq s).symm]
  · intro blob posts
    unfold negTally
    rw [funext fun s => (classify_neg_beq s).symm]
  · intro blob posts
    unfold neutTally
    rw [funext fun s => (classify_neut_beq s).symm]
  · norm_num [classify]
  · norm_num [classify]
  · intro s
    unfold classify
    split_ifs with h1 h2
    · exact ⟨fun _ => h1, fun _ => rfl⟩
    · exact ⟨fun hx => absurd hx (by decide), fun hx => absurd hx h1⟩
    · exact ⟨fun hx => absurd hx (by decide), fun hx => absurd hx h1⟩
  · intro s
    unfold classify
    split_ifs with h1 h2
    · exact ⟨fun hx => absurd hx (by decide), fun hx => absurd h1 (by linarith)⟩
    · exact ⟨fun _ => h2, fun _ => rfl⟩
    · exact ⟨fun hx => absurd hx (by decide), fun hx => absurd hx h2⟩
  · intro s
    unfold classify
    split_ifs with h1 h2
    · exact ⟨fun hx => absurd hx (by decide), fun hx => absurd h1 (by linarith [hx.2])⟩
    · exact ⟨fun hx => absurd hx (by decide), fun hx => absurd h2 (by linarith [hx.1])⟩
    · exact ⟨fun _ => ⟨not_lt.mp h2, not_lt.mp h1⟩, fun _ => rfl⟩

theorem mkAssessment_props (raw : Int) (nf sf : Option String) :
    0 ≤ (mkAssessment raw nf sf).score ∧
    (mkAssessment raw nf sf).score ≤ 100 ∧
    ((mkAssessment raw nf sf).level = "Low" ↔ (mkAssessment raw nf sf).score < 30) ∧
    ((mkAssessment raw nf sf).level = "Medium" ↔
      30 ≤ (mkAssessment raw nf sf).score ∧ (mkAssessment raw nf sf).score < 60) ∧
    ((mkAssessment raw nf sf).level = "High" ↔ 60 ≤ (mkAssessment raw nf sf).score) ∧
    (mkAssessment raw nf sf).recommendation =
      (if (mkAssessment raw nf sf).level = "Low" then "Approved for contracting"
       else if (mkAssessment raw nf sf).level = "Medium" then "Requires further review"
       else "High risk - not recommended") := by
  have hscore : (mkAssessment raw nf sf).score = pyMaxI 0 (pyMinI 100 raw) := rfl
  have hlevel : (mkAssessment raw nf sf).level =
      (if pyMaxI 0 (pyMinI 100 raw) < 30 then "Low"
       else if pyMaxI 0 (pyMinI 100 raw) < 60 then "Medium" else "High") := rfl
  have hrec : (mkAssessment raw nf sf).recommendation =
      (if pyMaxI 0 (pyMinI 100 raw) < 30 then "Approved for contracting"
       else if pyMaxI 0 (pyMinI 100 raw) < 60 then "Requires further review"
       else "High risk - not recommended") := rfl
  rw [hscore, hlevel, hrec]
  set s := pyMaxI 0 (pyMinI 100 raw) with hs
  have h0 : 0 ≤ s := by rw [hs]; unfold pyMaxI pyMinI; split_ifs <;> omega
  have h100 : s ≤ 100 := by rw [hs]; unfold pyMaxI pyMinI; split_ifs <;> omega
  refine ⟨h0, h100, ?_⟩
  rcases lt_or_ge s 30 with h30 | h30
  · rw [if_pos h30, if_pos h30]
    refine ⟨⟨fun _ => h30, fun _ => rfl⟩, ?_, ?_, ?_⟩
    · exact ⟨fun hx => absurd hx (by decide), fun hx => absurd hx.1 (by omega)⟩
    · exact ⟨fun hx => absurd hx (by decide), fun hx => absurd hx (by omega)⟩
    · rw [if_pos rfl]
  · have h30' : ¬ s < 30 := not_lt.mpr h30
    rcases lt_or_ge s 60 with h60 | h60
    · rw [if_neg h30', if_pos h60, if_neg h30', if_pos h60]
      refine ⟨⟨fun hx => absurd hx (by decide), fun hx => absurd hx (by omega)⟩, ?_, ?_, ?_⟩
      · exact ⟨fun _ => ⟨h30, h60⟩, fun _ => rfl⟩
      · exact ⟨fun hx => absurd hx (by decide), fun hx => absurd hx (by omega)⟩
      · rw [if_neg (by decide), if_pos rfl]
    · have h60' : ¬ s < 60 := not_lt.mpr h60
      rw [if_neg h30', if_neg h60', if_neg h30', if_neg h60']
      refine ⟨⟨fun hx => absurd hx (by decide), fun hx => absurd hx (by omega)⟩, ?_, ?_, ?_⟩
      · exact ⟨fun hx => absurd hx (by decide), fun hx => absurd hx.2 (by omega)⟩
      · exact ⟨fun _ => h60, fun _ => rfl⟩
      · rw [if_neg (by decide), if_neg (by decide)]

/-- C2: the assessment score is an integer clamped to [0, 100], the
level is Low / Medium / High exactly on score < 30, 30 <= score < 60,
60 <= score, and the recommendation is a function of the level alone. -/
theorem c2_risk_clamped_and_tiered (news : List NewsFinding) (social : List SocialFinding) :
    0 ≤ (calculate_risk news social).score ∧
    (calculate_risk news social).score ≤ 100 ∧
    ((calculate_risk news social).level = "Low" ↔ (calculate_risk news social).score < 30) ∧
    ((calculate_risk news social).level = "Medium" ↔
      30 ≤ (calculate_risk news social).score ∧ (calculate_risk news social).score < 60) ∧
    ((calculate_risk news social).level = "High" ↔ 60 ≤ (calculate_risk news social).score) ∧
    (calculate_risk news social).recommendation =
      (if (calculate_risk news social).level = "Low" then "Approved for contracting"
       else if (calculate_risk news social).level = "Medium" then "Requires further review"
       else "High risk - not recommended") :=
  mkAssessment_props _ _ _

theorem socialPart_fst (social : List SocialFinding) :
    (if social = [] then ((10 : Int), some "Limited social media presence")
     else social.foldl socialStep (0, none)).1 = socialContribution social := by
  by_cases hsoc : social = []
  · rw [if_pos hsoc]
    unfold socialContribution
    rw [if_pos hsoc]
  · rw [if_neg hsoc]
    unfold socialContribution
    rw [if_neg hsoc, foldl_socialStep_fst]
    simp

/-- C1 (amended): when at least one finding survives the code's
placeholder filter (title containing neither `No recent news` nor
`temporarily unavailable`), the risk score is the clamp of the news
bracket value taken at the average over the kept findings plus the
social contribution; the brackets and the per-finding social deltas are
exactly the claimed table (negative social sentiment adds 25, inside the
claimed [20, 25]). -/
theorem c1_risk_bracket_contributions (news : List NewsFinding)
    (social : List SocialFinding) (h : codeRealNews news ≠ []) :
    (calculate_risk news social).score =
      pyMaxI 0 (pyMinI 100
        ((newsBracket (codeNewsAvg news)).1 + socialContribution social)) ∧
    (codeNewsAvg news < -(3/10) → (newsBracket (codeNewsAvg news)).1 = 50) ∧
    (-(3/10) ≤ codeNewsAvg news ∧ codeNewsAvg news < -(1/10) →
      (newsBracket (codeNewsAvg news)).1 = 30) ∧
    (3/10 < codeNewsAvg news → (newsBracket (codeNewsAvg news)).1 = -10) ∧
    (-(1/10) ≤ codeNewsAvg news ∧ codeNewsAvg news ≤ 3/10 →
      (newsBracket (codeNewsAvg news)).1 = 5) ∧
    (∀ s : SocialFinding, 0 < s.mentions → s.sentiment = "negative" →
      20 ≤ socialDelta s ∧ socialDelta s ≤ 25) ∧
    (∀ s : SocialFinding, 0 < s.mentions → s.sentiment = "positive" →
      socialDelta s = -5) ∧
    (∀ s : SocialFinding, 0 < s.mentions → s.sentiment = "mixed" →
      socialDelta s = 10) ∧
    (∀ s : SocialFinding, s.mentions = 0 → socialDelta s = 10) ∧
    socialContribution [] = 10 ∧
    (social ≠ [] → socialContribution social = (social.map socialDelta).sum) := by
  have hnews : news ≠ [] := by
    intro e
    exact h (by rw [e]; rfl)
  refine ⟨?_, ?_, ?_, ?_, ?_, ?_, ?_, ?_, ?_, rfl, ?_⟩
  · simp only [calculate_risk]
    rw [if_neg hnews, if_neg h, socialPart_fst]
    rfl
  · intro h'
    unfold newsBracket
    rw [if_pos h']
  · rintro ⟨ha, hb⟩
    unfold newsBracket
    rw [if_neg (not_lt.mpr ha), if_pos hb]
  · intro h'
    unfold newsBracket
    rw [if_neg (by linarith), if_neg (by linarith), if_pos h']
  · rintro ⟨ha, hb⟩
    unfold newsBracket
    rw [if_neg (by linarith), if_neg (not_lt.mpr ha), if_neg (not_lt.mpr hb)]
  · intro s h1 h2
    unfold socialDelta
    rw [if_pos h1, if_pos h2]
    exact ⟨by omega, by omega⟩
  · intro s h1 h2
    unfold socialDelta
    rw [if_pos h1, if_neg (by rw [h2]; decide), if_pos h2]
  · intro s h1 h2
    unfold socialDelta
    rw [if_pos h1, if_neg (by rw [h2]; decide), if_neg (by rw [h2]; decide), if_pos h2]
  · intro s h1
    unfold socialDelta
    rw [if_neg (by omega)]
  · intro hs
    unfold socialContribution
    rw [if_neg hs]

theorem c1_risk_bracket_contributions_witness :
    (calculate_risk [fraudFinding] []).score =
      pyMaxI 0 (pyMinI 100
        ((newsBracket (codeNewsAvg [fraudFinding])).1 + socialContribution [])) :=
  (c1_risk_bracket_contributions [fraudFinding] [] (by decide)).1

unseal Rat.add Rat.mul Rat.inv Rat.sub in
/-- C1 counterexample: on a findings list mixing one real negative item
(score -0.4) with the rate-limit placeholder, the claims' real-item
average is below -0.3, so the claim demands +50 news plus +10 social =
score 60; the code averages the placeholder in (giving -0.2, bracket
+30) and returns 40. -/
theorem c1_spec_average_counterexample :
    specRealNews c1News ≠ [] ∧
    specNewsAvg c1News < -(3/10) ∧
    socialContribution [] = 10 ∧
    (calculate_risk c1News []).score = 40 ∧
    (calculate_risk c1News []).score ≠ 60 := by
  decide

/-- C3 (amended): a NON-EMPTY news list in which no finding survives the
code's placeholder filter contributes +15 with news factor `Limited
public media presence`.  (An empty list contributes nothing, and the
rate-limited / error placeholders pass the filter as real items — see
the counterexample.) -/
theorem c3_no_real_news_contribution (news : List NewsFinding)
    (social : List SocialFinding) (h1 : news ≠ []) (h2 : codeRealNews news = []) :
    (calculate_risk news social).factors.news = some "Limited public media presence" ∧
    (calculate_risk news social).score =
      pyMaxI 0 (pyMinI 100 (15 + socialContribution social)) := by
  constructor
  · simp only [calculate_risk]
    rw [if_neg h1, if_pos h2]
    rfl
  · simp only [calculate_risk]
    rw [if_neg h1, if_pos h2, socialPart_fst]
    rfl

theorem c3_no_real_news_contribution_witness :
    (calculate_risk [no_news_placeholder "Juan Dela Cruz" "2026-10-12"] []).factors.news =
      some "Limited public media presence" ∧
    (calculate_risk [no_news_placeholder "Juan Dela Cruz" "2026-10-12"] []).score =
      pyMaxI 0 (pyMinI 100 (15 + socialContribution [])) :=
  c3_no_real_news_contribution [no_news_placeholder "Juan Dela Cruz" "2026-10-12"] []
    (by decide) (by decide)

unseal Rat.add Rat.mul Rat.inv Rat.sub in
/-- C3 counterexample: the rate-limit placeholder alone is NOT treated
as `no real news` — the code scores it as a real neutral item (+5,
factor `Neutral media coverage`, total 15 with the +10 social default)
instead of the claimed +15 with factor `Limited public media presence`
(which would total 25); and an empty news list contributes no news term
and no news factor at all (total 10) instead of the claimed +15. -/
theorem c3_placeholder_filter_counterexample :
    (calculate_risk [rate_limit_placeholder "2026-10-12"] []).score = 15 ∧
    (calculate_risk [rate_limit_placeholder "2026-10-12"] []).factors.news =
      some "Neutral media coverage" ∧
    ¬ (calculate_risk [rate_limit_placeholder "2026-10-12"] []).factors.news =
        some "Limited public media presence" ∧
    (calculate_risk ([] : List NewsFinding) []).score = 10 ∧
    (calculate_risk ([] : List NewsFinding) []).factors.news = none := by
  decide

/-- C7: for a non-empty post list the aggregate sentiment is `positive`
exactly when the positive tally strictly exceeds both others, otherwise
`negative` exactly when the negative tally strictly exceeds the positive
tally (so negative wins ties against neutral but not against positive),
otherwise `mixed`. -/
theorem c7_overall_sentiment_rule (blob : String → ℚ) (posts : List RedditPost)
    (total : Nat) (h : posts ≠ []) :
    ((search_reddit_finding blob (.ok posts total)).sentiment = "positive" ↔
      (posTally blob posts > negTally blob posts ∧
        posTally blob posts > neutTally blob posts)) ∧
    ((search_reddit_finding blob (.ok posts total)).sentiment = "negative" ↔
      (¬(posTally blob posts > negTally blob posts ∧
          posTally blob posts > neutTally blob posts) ∧
        negTally blob posts > posTally blob posts)) ∧
    ((search_reddit_finding blob (.ok posts total)).sentiment = "mixed" ↔
      (¬(posTally blob posts > negTally blob posts ∧
          posTally blob posts > neutTally blob posts) ∧
        ¬(negTally blob posts > posTally blob posts))) := by
  have hsent : (search_reddit_finding blob (.ok posts total)).sentiment =
      (if posTally blob posts > negTally blob posts ∧
          posTally blob posts > neutTally blob posts then "positive"
       else if negTally blob posts > posTally blob posts then "negative"
       else "mixed") := by
    simp only [search_reddit_finding]
    rw [if_neg h]
  rw [hsent]
  by_cases hc1 : posTally blob posts > negTally blob posts ∧
      posTally blob posts > neutTally blob posts
  · rw [if_pos hc1]
    exact ⟨⟨fun _ => hc1, fun _ => rfl⟩,
           ⟨fun hx => absurd hx (by decide), fun hx => absurd hc1 hx.1⟩,
           ⟨fun hx => absurd hx (by decide), fun hx => absurd hc1 hx.1⟩⟩
  · rw [if_neg hc1]
    by_cases hc2 : negTally blob posts > posTally blob posts
    · rw [if_pos hc2]
      exact ⟨⟨fun hx => absurd hx (by decide), fun hx => absurd hx hc1⟩,
             ⟨fun _ => ⟨hc1, hc2⟩, fun _ => rfl⟩,
             ⟨fun hx => absurd hx (by decide), fun hx => absurd hc2 hx.2⟩⟩
    · rw [if_neg hc2]
      exact ⟨⟨fun hx => absurd hx (by decide), fun hx => absurd hx hc1⟩,
             ⟨fun hx => absurd hx (by decide), fun hx => absurd hx.2 hc2⟩,
             ⟨fun _ => ⟨hc1, hc2⟩, fun _ => rfl⟩⟩

unseal Rat.add Rat.mul Rat.inv Rat.sub in
theorem c7_overall_sentiment_rule_witness :
    (search_reddit_finding zeroBlob (.ok tiePosts 6)).sentiment = "mixed" :=
  (c7_overall_sentiment_rule zeroBlob tiePosts 6 (by decide)).2.2.mpr
    ⟨by decide, by decide⟩

/-- C8: for a non-empty post list the sample has at most 5 entries, is
the stable negative-neutral-positive bucket ordering of the sampled
entries, and every entry truncates its display text to at most 200
characters and carries the matched keywords of its post. -/
theorem c8_sample_bounded_ordered (blob : String → ℚ) (posts : List RedditPost)
    (total : Nat) (h : posts ≠ []) :
    (search_reddit_finding blob (.ok posts total)).sample_comments.length ≤ 5 ∧
    (search_reddit_finding blob (.ok posts total)).sample_comments =
      ((posts.take 5).map (sampleEntry blob)).filter negBucket ++
      ((posts.take 5).map (sampleEntry blob)).filter neutBucket ++
      ((posts.take 5).map (sampleEntry blob)).filter posBucket ∧
    (∀ c ∈ (search_reddit_finding blob (.ok posts total)).sample_comments,
      c.text.length ≤ 200 ∧
      ∃ p ∈ posts, c.text = pyTruncate p.title 200 ∧
        c.keywords = extract_keywords p.full_text ∧
        c.sentiment = sampleCommentLabel (postScore blob p)) := by
  have hsample : (search_reddit_finding blob (.ok posts total)).sample_comments =
      sortNegFirst ((posts.take 5).map (sampleEntry blob)) := by
    simp only [search_reddit_finding]
    rw [if_neg h]
  refine ⟨?_, ?_, ?_⟩
  · rw [hsample, sortNegFirst_length, List.length_map]
    calc (posts.take 5).length = min 5 posts.length := List.length_take 5 posts
      _ ≤ 5 := min_le_left _ _
  · rw [hsample]
    rfl
  · intro c hc
    rw [hsample] at hc
    rcases List.mem_map.mp (mem_of_mem_sortNegFirst hc) with ⟨p, hp, hpc⟩
    subst hpc
    exact ⟨pyTruncate_length_le _ _, p, List.take_subset 5 posts hp, rfl, rfl, rfl⟩

theorem c8_sample_bounded_ordered_witness :
    (search_reddit_finding zeroBlob (.ok [negDemoPost "n1"] 1)).sample_comments.length ≤ 5 :=
  (c8_sample_bounded_ordered zeroBlob [negDemoPost "n1"] 1 (by decide)).1

/-- C9: the endpoint returns 400 with body error `Name is required`
exactly when the name is missing or empty; for any other name and ANY
upstream outcomes (which the search functions degrade to placeholder
findings) it returns 200 with the assembled check response, so the
missing-name error is the only non-200 condition. -/
theorem c9_endpoint_name_required (blob : String → ℚ) (today ts : String)
    (name : Option String) (newsResp : NewsApiResp) (redditRes : RedditResult) :
    ((name = none ∨ name = some "") →
      perform_background_check blob today ts name newsResp redditRes =
        .clientError 400 "Name is required") ∧
    (∀ n : String, name = some n → n ≠ "" →
      perform_background_check blob today ts name newsResp redditRes =
        .success 200 ⟨n, ts,
          calculate_risk (search_news_api blob n today newsResp)
            (search_reddit blob redditRes),
          search_news_api blob n today newsResp, search_reddit blob redditRes⟩) ∧
    (statusOf (perform_background_check blob today ts name newsResp redditRes) = 400 ∨
      statusOf (perform_background_check blob today ts name newsResp redditRes) = 200) ∧
    (statusOf (perform_background_check blob today ts name newsResp redditRes) = 400 ↔
      (name = none ∨ name = some "")) := by
  cases name with
  | none =>
      refine ⟨fun _ => rfl, ?_, Or.inl rfl, ⟨fun _ => Or.inl rfl, fun _ => rfl⟩⟩
      intro n hn
      exact absurd hn (by simp)
  | some n =>
      by_cases hn : n = ""
      · subst hn
        refine ⟨fun _ => rfl, ?_, Or.inl rfl, ⟨fun _ => Or.inr rfl, fun _ => rfl⟩⟩
        intro m hm hne
        exact absurd (Option.some.inj hm).symm hne
      · have hperf : perform_background_check blob today ts (some n) newsResp redditRes =
            .success 200 ⟨n, ts,
              calculate_risk (search_news_api blob n today newsResp)
                (search_reddit blob redditRes),
              search_news_api blob n today newsResp, search_reddit blob redditRes⟩ := by
          simp only [perform_background_check]
          rw [if_neg hn]
        refine ⟨?_, ?_, ?_, ?_⟩
        · rintro (h' | h')
          · exact absurd h' (by simp)
          · exact absurd (Option.some.inj h') hn
        · intro m hm hne
          obtain rfl : n = m := Option.some.inj hm
          exact hperf
        · right
          rw [hperf]
          rfl
        · constructor
          · intro h400
            rw [hperf] at h400
            simp only [statusOf] at h400
            exact absurd h400 (by decide)
          · rintro (h' | h')
            · exact absurd h' (by simp)
            · exact absurd (Option.some.inj h') hn

theorem c9_endpoint_name_required_witness :
    perform_background_check zeroBlob "2026-10-12" "2026-10-12T09:00:00" none
        .rateLimited (.error "Timeout") = .clientError 400 "Name is required" :=
  (c9_endpoint_name_required zeroBlob "2026-10-12" "2026-10-12T09:00:00" none
    .rateLimited (.error "Timeout")).1 (Or.inl rfl)

unseal Rat.add Rat.mul Rat.inv Rat.sub in
/-- C10: the sample is always the bucket-sorted image of the 5-post
prefix in input order; on the concrete input `lateNegPosts` (five
positive posts then one negative post) every sample entry is positive
and the negative post (which classifies negative) never appears. -/
theorem c10_sample_prefix_only :
    (∀ (blob : String → ℚ) (posts : List RedditPost) (total : Nat),
      (search_reddit_finding blob (.ok posts total)).sample_comments =
        sortNegFirst ((posts.take 5).map (sampleEntry blob))) ∧
    (search_reddit_finding zeroBlob (.ok lateNegPosts 6)).sample_comments.length = 5 ∧
    (∀ c ∈ (search_reddit_finding zeroBlob (.ok lateNegPosts 6)).sample_comments,
      c.sentiment = "positive") ∧
    postScore zeroBlob (negDemoPost "Total scam operation exposed") < -(1/10) ∧
    (∀ c ∈ (search_reddit_finding zeroBlob (.ok lateNegPosts 6)).sample_comments,
      ¬ c.text = pyTruncate (negDemoPost "Total scam operation exposed").title 200) := by
  refine ⟨?_, by decide, by decide, by decide, by decide⟩
  intro blob posts total
  cases posts with
  | nil => rfl
  | cons p ps =>
      simp only [search_reddit_finding]
      rw [if_neg (by simp : ¬(p :: ps = []))]

unseal Rat.add Rat.mul Rat.inv Rat.sub in
theorem c10_sample_prefix_only_witness :
    (sampleEntry zeroBlob (posDemoPost "Positive review one")).sentiment = "positive" :=
  c10_sample_prefix_only.2.2.1
    (sampleEntry zeroBlob (posDemoPost "Positive review one")) (by decide)

end BGC
